import Mathlib

/-!
# Minos hypervisor: IOMMU framework header and build configuration

A shallow embedding of `os/include/minos/iommu.h` (flag words, domain types,
group notification codes, the inline fault dispatcher `report_iommu_fault`)
and of `include/config/config.h` (translation table sizes), with the
properties stated about them.

Conventions: C pointers are natural numbers with `NULL = 0`; C `int` values
that are only passed through are integers; flag words are natural numbers
(all of them are non-negative and below `2 ^ 32`); 64-bit shifts are written
with an explicit reduction modulo `2 ^ 64`.
-/

namespace Minos

/-! ## include/config/config.h -/

/-- `#define CONFIG_MAX_PHYSICAL_SIZE (0x100000000)`; the literal does not fit
in 32 bits, so its C type is the 64-bit `long`. -/
def CONFIG_MAX_PHYSICAL_SIZE : Nat := 0x100000000

/-- Right shift of a 64-bit value. -/
def shr64 (x n : Nat) : Nat := (x % 2 ^ 64) >>> n

/-- Left shift of a 64-bit value, keeping the low 64 bits of the result. -/
def shl64 (x n : Nat) : Nat := (x <<< n) % 2 ^ 64

/-- The three translation granules config.h distinguishes. -/
inductive Granule where
  | size_64K
  | size_16K
  | size_4K
  deriving DecidableEq, Repr

/-- The preprocessor cascade of config.h, lines 30-45:
`#ifdef CONFIG_GRANULE_SIZE_64K` / `#elif CONFIG_GRANULE_SIZE_16K` / `#else`.
`defined_64K` says whether the first macro is defined, `value_16K` is the
value the second one expands to (`0` when it is not defined). -/
def selectGranule (defined_64K : Bool) (value_16K : Int) : Granule :=
  if defined_64K then Granule.size_64K
  else if value_16K ≠ 0 then Granule.size_16K
  else Granule.size_4K

/-- Line 28 of config.h defines `CONFIG_GRANULE_SIZE_64K` (and nothing defines
`CONFIG_GRANULE_SIZE_16K`). -/
def configuredGranule : Granule := selectGranule true 0

/-- `MMU_TTB_LEVEL1_ALIGN`, per granule. -/
def MMU_TTB_LEVEL1_ALIGN : Granule → Nat
  | Granule.size_64K => 0x10000
  | Granule.size_16K => 0x4000
  | Granule.size_4K => 0x1000

/-- `MMU_TTB_LEVEL2_ALIGN`, per granule. -/
def MMU_TTB_LEVEL2_ALIGN : Granule → Nat
  | Granule.size_64K => 0x10000
  | Granule.size_16K => 0x4000
  | Granule.size_4K => 0x1000

/-- `MMU_TTB_LEVEL1_SIZE`, per granule. -/
def MMU_TTB_LEVEL1_SIZE : Granule → Nat
  | Granule.size_64K => 0x10000
  | Granule.size_16K => 0x4000
  | Granule.size_4K => 0x1000

/-- `MMU_TTB_LEVEL2_SIZE`, per granule:
`((CONFIG_MAX_PHYSICAL_SIZE >> 29) << 16)`, `(... >> 25) << 14`,
`(... >> 30) << 12`, evaluated in 64-bit arithmetic. -/
def MMU_TTB_LEVEL2_SIZE : Granule → Nat
  | Granule.size_64K => shl64 (shr64 CONFIG_MAX_PHYSICAL_SIZE 29) 16
  | Granule.size_16K => shl64 (shr64 CONFIG_MAX_PHYSICAL_SIZE 25) 14
  | Granule.size_4K => shl64 (shr64 CONFIG_MAX_PHYSICAL_SIZE 30) 12

/-! ## os/include/minos/iommu.h: flag words -/

/-- `#define VMM_IOMMU_READ (1 << 0)` -/
def VMM_IOMMU_READ : Nat := 1 <<< 0
/-- `#define VMM_IOMMU_WRITE (1 << 1)` -/
def VMM_IOMMU_WRITE : Nat := 1 <<< 1
/-- `#define VMM_IOMMU_CACHE (1 << 2)` -/
def VMM_IOMMU_CACHE : Nat := 1 <<< 2
/-- `#define VMM_IOMMU_NOEXEC (1 << 3)` -/
def VMM_IOMMU_NOEXEC : Nat := 1 <<< 3
/-- `#define VMM_IOMMU_MMIO (1 << 4)` -/
def VMM_IOMMU_MMIO : Nat := 1 <<< 4

/-- `#define __VMM_IOMMU_DOMAIN_PAGING (1U << 0)` -/
def __VMM_IOMMU_DOMAIN_PAGING : Nat := 1 <<< 0
/-- `#define __VMM_IOMMU_DOMAIN_DMA_API (1U << 1)` -/
def __VMM_IOMMU_DOMAIN_DMA_API : Nat := 1 <<< 1
/-- `#define __VMM_IOMMU_DOMAIN_PT (1U << 2)` -/
def __VMM_IOMMU_DOMAIN_PT : Nat := 1 <<< 2

/-- `#define VMM_IOMMU_DOMAIN_BLOCKED (0U)` -/
def VMM_IOMMU_DOMAIN_BLOCKED : Nat := 0
/-- `#define VMM_IOMMU_DOMAIN_IDENTITY (__VMM_IOMMU_DOMAIN_PT)` -/
def VMM_IOMMU_DOMAIN_IDENTITY : Nat := __VMM_IOMMU_DOMAIN_PT
/-- `#define VMM_IOMMU_DOMAIN_UNMANAGED (__VMM_IOMMU_DOMAIN_PAGING)` -/
def VMM_IOMMU_DOMAIN_UNMANAGED : Nat := __VMM_IOMMU_DOMAIN_PAGING
/-- `#define VMM_IOMMU_DOMAIN_DMA (__VMM_IOMMU_DOMAIN_PAGING | __VMM_IOMMU_DOMAIN_DMA_API)` -/
def VMM_IOMMU_DOMAIN_DMA : Nat :=
  __VMM_IOMMU_DOMAIN_PAGING ||| __VMM_IOMMU_DOMAIN_DMA_API

/-- `#define VMM_IOMMU_FAULT_READ 0x0` -/
def VMM_IOMMU_FAULT_READ : Int := 0x0
/-- `#define VMM_IOMMU_FAULT_WRITE 0x1` -/
def VMM_IOMMU_FAULT_WRITE : Int := 0x1

/-- `#define VMM_IOMMU_GROUP_NOTIFY_ADD_DEVICE 1` -/
def VMM_IOMMU_GROUP_NOTIFY_ADD_DEVICE : Nat := 1
/-- `#define VMM_IOMMU_GROUP_NOTIFY_DEL_DEVICE 2` -/
def VMM_IOMMU_GROUP_NOTIFY_DEL_DEVICE : Nat := 2
/-- `#define VMM_IOMMU_GROUP_NOTIFY_BIND_DRIVER 3` -/
def VMM_IOMMU_GROUP_NOTIFY_BIND_DRIVER : Nat := 3
/-- `#define VMM_IOMMU_GROUP_NOTIFY_BOUND_DRIVER 4` -/
def VMM_IOMMU_GROUP_NOTIFY_BOUND_DRIVER : Nat := 4
/-- `#define VMM_IOMMU_GROUP_NOTIFY_UNBIND_DRIVER 5` -/
def VMM_IOMMU_GROUP_NOTIFY_UNBIND_DRIVER : Nat := 5
/-- `#define VMM_IOMMU_GROUP_NOTIFY_UNBOUND_DRIVER 6` -/
def VMM_IOMMU_GROUP_NOTIFY_UNBOUND_DRIVER : Nat := 6

/-- The group notification codes, in the order the header defines them. -/
def groupNotifyCodes : List Nat :=
  [ VMM_IOMMU_GROUP_NOTIFY_ADD_DEVICE, VMM_IOMMU_GROUP_NOTIFY_DEL_DEVICE,
    VMM_IOMMU_GROUP_NOTIFY_BIND_DRIVER, VMM_IOMMU_GROUP_NOTIFY_BOUND_DRIVER,
    VMM_IOMMU_GROUP_NOTIFY_UNBIND_DRIVER, VMM_IOMMU_GROUP_NOTIFY_UNBOUND_DRIVER ]

/-- The five mapping attribute flags of `iommu_map`'s `prot` word. -/
inductive ProtFlag where
  | read
  | write
  | cache
  | noexec
  | mmio
  deriving DecidableEq, Repr

/-- The header's value of a mapping attribute flag. -/
def ProtFlag.mask : ProtFlag → Nat
  | ProtFlag.read => VMM_IOMMU_READ
  | ProtFlag.write => VMM_IOMMU_WRITE
  | ProtFlag.cache => VMM_IOMMU_CACHE
  | ProtFlag.noexec => VMM_IOMMU_NOEXEC
  | ProtFlag.mmio => VMM_IOMMU_MMIO

/-- All mapping attribute flags, in the header's order. -/
def protFlags : List ProtFlag :=
  [ProtFlag.read, ProtFlag.write, ProtFlag.cache, ProtFlag.noexec, ProtFlag.mmio]

/-- The `prot` word of a set of flags: the bitwise OR of its members. -/
def protWord (s : Finset ProtFlag) : Nat :=
  (protFlags.filter (fun f => decide (f ∈ s))).foldl (fun acc f => acc ||| f.mask) 0

/-- The three domain feature flags. -/
inductive DomainFlag where
  | paging
  | dma_api
  | pt
  deriving DecidableEq, Repr

/-- The header's value of a domain feature flag. -/
def DomainFlag.mask : DomainFlag → Nat
  | DomainFlag.paging => __VMM_IOMMU_DOMAIN_PAGING
  | DomainFlag.dma_api => __VMM_IOMMU_DOMAIN_DMA_API
  | DomainFlag.pt => __VMM_IOMMU_DOMAIN_PT

/-- All domain feature flags, in the header's order. -/
def domainFlags : List DomainFlag :=
  [DomainFlag.paging, DomainFlag.dma_api, DomainFlag.pt]

/-- The type word of a set of feature flags: the bitwise OR of its members. -/
def domainTypeWord (s : Finset DomainFlag) : Nat :=
  (domainFlags.filter (fun f => decide (f ∈ s))).foldl (fun acc f => acc ||| f.mask) 0

/-- Whether flag word `word` has some bit of `flag` set: the C test `word & flag`. -/
def hasFlag (word flag : Nat) : Bool := word &&& flag != 0

/-- The feature flags set in a type word. -/
def domainTypeFlags (type : Nat) : Finset DomainFlag :=
  (domainFlags.filter (fun f => hasFlag type f.mask)).toFinset

/-- The bits of the three feature flags together. -/
def domainFlagsMask : Nat :=
  __VMM_IOMMU_DOMAIN_PAGING ||| __VMM_IOMMU_DOMAIN_DMA_API ||| __VMM_IOMMU_DOMAIN_PT

/-- "This are the possible domain-types": the four `VMM_IOMMU_DOMAIN_*` words
of the header, lines 77-93. -/
def domain_types : List Nat :=
  [ VMM_IOMMU_DOMAIN_BLOCKED, VMM_IOMMU_DOMAIN_IDENTITY,
    VMM_IOMMU_DOMAIN_UNMANAGED, VMM_IOMMU_DOMAIN_DMA ]

/-- The flag sets of the four domain types, in the order of `domain_types`. -/
def domainTypeSubsets : List (Finset DomainFlag) :=
  [ ∅, {DomainFlag.pt}, {DomainFlag.paging}, {DomainFlag.paging, DomainFlag.dma_api} ]

/-! ## os/include/minos/iommu.h: the fault dispatcher -/

/-- A C pointer (to data or to a function). -/
abbrev Ptr := Nat

/-- The null pointer. -/
def NULL : Ptr := 0

/-- `struct iommu_domain_geometry` -/
structure iommu_domain_geometry where
  aperture_start : Nat
  aperture_end : Nat
  force_aperture : Bool

/-- `struct iommu_domain`. `head` (a `struct list_head`) is its two links and
`ref_count` (a `struct xref`) its counter; `ops`, `priv`, `handler` and
`handler_token` are pointers, `handler` a pointer to a function. -/
structure iommu_domain where
  name : String
  type : Nat
  bus : Ptr
  ctrl : Ptr
  head : Ptr × Ptr
  ref_count : Int
  ops : Ptr
  priv : Ptr
  handler : Ptr
  handler_token : Ptr
  geometry : iommu_domain_geometry

/-- The memory the fault path reads: the `struct iommu_domain` a domain pointer
points to. -/
structure Machine where
  domains : Ptr → iommu_domain

/-- `typedef int (*iommu_fault_handler_t)(struct iommu_domain *, struct device *,
physical_addr_t, int, void *)`: what a handler does when it is called, its
result code and its effect on memory. -/
abbrev iommu_fault_handler_t :=
  Ptr → Ptr → Nat → Int → Ptr → Machine → Int × Machine

/-- One invocation of a fault handler: the function called and its five
arguments. -/
structure HandlerCall where
  fn : Ptr
  domain : Ptr
  dev : Ptr
  iova : Nat
  flags : Int
  token : Ptr
  deriving DecidableEq, Repr

/-- What a run of `report_iommu_fault` leaves: the value returned, the memory
afterwards and the handler invocations the function itself made, in order. -/
structure FaultReport where
  ret : Int
  machine : Machine
  calls : List HandlerCall

/-- `report_iommu_fault` (iommu.h, lines 386-400). `VMM_ENOSYS` comes from
`minos/errno.h`; `text` gives the function a function pointer points to. -/
def report_iommu_fault (VMM_ENOSYS : Int) (text : Ptr → iommu_fault_handler_t)
    (domain dev : Ptr) (iova : Nat) (flags : Int) (m : Machine) : FaultReport :=
  let ret := VMM_ENOSYS
  if (m.domains domain).handler ≠ NULL then
    let fn := (m.domains domain).handler
    let token := (m.domains domain).handler_token
    let r := text fn domain dev iova flags token m
    { ret := r.1, machine := r.2,
      calls := [{ fn := fn, domain := domain, dev := dev, iova := iova,
                  flags := flags, token := token }] }
  else
    { ret := ret, machine := m, calls := [] }

/-- A domain object with the given fault handler and token and nothing else set. -/
def blankDomain (handler token : Ptr) : iommu_domain :=
  { name := "", type := VMM_IOMMU_DOMAIN_BLOCKED, bus := NULL, ctrl := NULL,
    head := (NULL, NULL), ref_count := 1, ops := NULL, priv := NULL,
    handler := handler, handler_token := token,
    geometry := { aperture_start := 0, aperture_end := 0, force_aperture := false } }

/-- A memory in which every domain has the given fault handler and token. -/
def uniformMachine (handler token : Ptr) : Machine :=
  { domains := fun _ => blankDomain handler token }

/-- A fault handler that changes nothing and returns `code`. -/
def constHandler (code : Int) : Ptr → iommu_fault_handler_t :=
  fun _ _ _ _ _ _ m => (code, m)

/-! ## Group attach, from the design description -/

/-- One call into the driver's operation set made by group attach. -/
inductive OpsCall where
  | attach_dev (domain dev : Ptr) (ret : Int)
  | detach_dev (domain dev : Ptr)
  deriving DecidableEq, Repr

/-- The two members of `struct iommu_ops` group attach uses (iommu.h, lines
179-182): `int (*attach_dev)(domain, dev)` and `void (*detach_dev)(domain, dev)`,
each acting on the driver's state `σ`. -/
structure iommu_ops (σ : Type) where
  attach_dev : Ptr → Ptr → σ → Int × σ
  detach_dev : Ptr → Ptr → σ → σ

/-- The driver's state together with the calls made into it so far. -/
structure DriverWorld (σ : Type) where
  state : σ
  log : List OpsCall

/-- Modelled from the spec: `struct iommu_group`, which the header only
declares. Of the group's attributes (section 3) the member device list and the
optional attached domain. -/
structure iommu_group where
  devices : List Ptr
  domain : Option Ptr

/-- Result of a group attach: success, the exclusivity error of section 7, or
the code a driver's `attach_dev` failed with. -/
inductive AttachStatus where
  | ok
  | AlreadyAttached
  | driver_error (code : Int)
  deriving DecidableEq, Repr

/-- Call the driver's `attach_dev` and record the call with its result. -/
def call_attach_dev {σ : Type} (ops : iommu_ops σ) (domain dev : Ptr)
    (w : DriverWorld σ) : Int × DriverWorld σ :=
  let r := ops.attach_dev domain dev w.state
  (r.1, { state := r.2, log := w.log ++ [OpsCall.attach_dev domain dev r.1] })

/-- Call the driver's `detach_dev` and record the call. -/
def call_detach_dev {σ : Type} (ops : iommu_ops σ) (domain dev : Ptr)
    (w : DriverWorld σ) : DriverWorld σ :=
  { state := ops.detach_dev domain dev w.state,
    log := w.log ++ [OpsCall.detach_dev domain dev] }

/-- Modelled from the spec: the attach loop of `iommu_group_attach_domain`
(section 4.3), "invokes driver `attach_dev` for every member device of the
group", stopping at the first device whose attach fails (a non-zero result).
Returns the failing code or `0`, the devices attached so far (latest first)
and the driver world. -/
def attach_devices {σ : Type} (ops : iommu_ops σ) (domain : Ptr) :
    List Ptr → List Ptr → DriverWorld σ → Int × List Ptr × DriverWorld σ
  | [], done, w => (0, done, w)
  | dev :: rest, done, w =>
    let r := call_attach_dev ops domain dev w
    if r.1 ≠ 0 then (r.1, done, r.2)
    else attach_devices ops domain rest (dev :: done) r.2

/-- Modelled from the spec: the rollback of `iommu_group_attach_domain`
(section 5), "detach already-attached devices": `detach_dev` for each device
of the list, in list order. -/
def detach_devices {σ : Type} (ops : iommu_ops σ) (domain : Ptr) :
    List Ptr → DriverWorld σ → DriverWorld σ
  | [], w => w
  | dev :: rest, w => detach_devices ops domain rest (call_detach_dev ops domain dev w)

/-- Modelled from the spec: `iommu_group_attach_domain`, of which the header
has only the prototype (lines 321-325). Section 4.3: "fails with
`AlreadyAttached` if the group already holds a domain; otherwise invokes driver
`attach_dev` for every member device of the group (rolling back prior
attachments and returning the first error if any device attach fails), then
records the domain as the group's attached domain." -/
def iommu_group_attach_domain {σ : Type} (ops : iommu_ops σ) (group : iommu_group)
    (domain : Ptr) (w : DriverWorld σ) : AttachStatus × iommu_group × DriverWorld σ :=
  match group.domain with
  | some _ => (AttachStatus.AlreadyAttached, group, w)
  | none =>
    let r := attach_devices ops domain group.devices [] w
    if r.1 ≠ 0 then
      (AttachStatus.driver_error r.1, group, detach_devices ops domain r.2.1 r.2.2)
    else
      (AttachStatus.ok, { group with domain := some domain }, r.2.2)

/-- The driver's state once its `attach_dev` has run for each device of `devs`,
in order, from state `s`. -/
def stateAfterAttach {σ : Type} (ops : iommu_ops σ) (domain : Ptr) (devs : List Ptr)
    (s : σ) : σ :=
  devs.foldl (fun st dev => (ops.attach_dev domain dev st).2) s

/-- The driver's state once its `detach_dev` has run for each device of `devs`,
in order, from state `s`. -/
def stateAfterDetach {σ : Type} (ops : iommu_ops σ) (domain : Ptr) (devs : List Ptr)
    (s : σ) : σ :=
  devs.foldl (fun st dev => ops.detach_dev domain dev st) s

/-- Every device of `devs` attaches: the driver's `attach_dev`, called for a
device in the state the attaches of the devices before it have left, returns `0`. -/
def attachesSucceed {σ : Type} (ops : iommu_ops σ) (domain : Ptr) (devs : List Ptr)
    (s : σ) : Prop :=
  ∀ pre dev post, devs = pre ++ dev :: post →
    (ops.attach_dev domain dev (stateAfterAttach ops domain pre s)).1 = 0

/-- A driver whose `attach_dev` fails with `-5` for device `3` and succeeds for
every other device; its state counts the devices currently attached. -/
def sampleOps : iommu_ops Nat :=
  { attach_dev := fun _ dev n => if dev = 3 then (-5, n) else (0, n + 1),
    detach_dev := fun _ _ n => n - 1 }

/-! ## Properties: config.h -/

/-- C10. With `CONFIG_MAX_PHYSICAL_SIZE = 0x100000000`, `MMU_TTB_LEVEL2_SIZE` is
`0x80000` for the 64K granule (the configured one), `0x200000` for the 16K
granule and `0x4000` for the 4K granule; for each granule it is a positive
multiple of `MMU_TTB_LEVEL2_ALIGN`, the granule size; and no computation loses bits: each right
shift drops only zero bits and each left shift stays below `2 ^ 63`, so the
64-bit result is the exact one. -/
theorem mmu_ttb_level2_size_exact :
    CONFIG_MAX_PHYSICAL_SIZE = 0x100000000 ∧
    configuredGranule = Granule.size_64K ∧
    MMU_TTB_LEVEL2_SIZE Granule.size_64K = 0x80000 ∧
    MMU_TTB_LEVEL2_SIZE Granule.size_16K = 0x200000 ∧
    MMU_TTB_LEVEL2_SIZE Granule.size_4K = 0x4000 ∧
    (MMU_TTB_LEVEL2_ALIGN Granule.size_64K = 64 * 1024 ∧
      MMU_TTB_LEVEL2_ALIGN Granule.size_16K = 16 * 1024 ∧
      MMU_TTB_LEVEL2_ALIGN Granule.size_4K = 4 * 1024) ∧
    (∀ g : Granule, 0 < MMU_TTB_LEVEL2_SIZE g ∧
      MMU_TTB_LEVEL2_ALIGN g ∣ MMU_TTB_LEVEL2_SIZE g) ∧
    CONFIG_MAX_PHYSICAL_SIZE < 2 ^ 63 ∧
    ((CONFIG_MAX_PHYSICAL_SIZE >>> 29) <<< 29 = CONFIG_MAX_PHYSICAL_SIZE ∧
      (CONFIG_MAX_PHYSICAL_SIZE >>> 29) <<< 16 < 2 ^ 63 ∧
      MMU_TTB_LEVEL2_SIZE Granule.size_64K = (CONFIG_MAX_PHYSICAL_SIZE >>> 29) <<< 16) ∧
    ((CONFIG_MAX_PHYSICAL_SIZE >>> 25) <<< 25 = CONFIG_MAX_PHYSICAL_SIZE ∧
      (CONFIG_MAX_PHYSICAL_SIZE >>> 25) <<< 14 < 2 ^ 63 ∧
      MMU_TTB_LEVEL2_SIZE Granule.size_16K = (CONFIG_MAX_PHYSICAL_SIZE >>> 25) <<< 14) ∧
    ((CONFIG_MAX_PHYSICAL_SIZE >>> 30) <<< 30 = CONFIG_MAX_PHYSICAL_SIZE ∧
      (CONFIG_MAX_PHYSICAL_SIZE >>> 30) <<< 12 < 2 ^ 63 ∧
      MMU_TTB_LEVEL2_SIZE Granule.size_4K = (CONFIG_MAX_PHYSICAL_SIZE >>> 30) <<< 12) := by
  refine ⟨rfl, by decide, by decide, by decide, by decide,
    ⟨by decide, by decide, by decide⟩, ?_, by decide,
    ⟨by decide, by decide, by decide⟩, ⟨by decide, by decide, by decide⟩,
    ⟨by decide, by decide, by decide⟩⟩
  intro g
  cases g <;> exact ⟨by decide, by decide⟩

/-! ## Properties: notification codes -/

/-- C5, as stated, fails: the notification codes do not have exactly four
distinct values. -/
theorem groupNotifyCodes_card_ne_four : groupNotifyCodes.toFinset.card ≠ 4 := by
  decide

/-- C5, amended. The group notification codes form a six-valued enumeration:
ADD_DEVICE, DEL_DEVICE, BIND_DRIVER, BOUND_DRIVER, UNBIND_DRIVER and
UNBOUND_DRIVER are the pairwise distinct values 1 to 6. -/
theorem groupNotifyCodes_six_distinct :
    groupNotifyCodes = [1, 2, 3, 4, 5, 6] ∧
    groupNotifyCodes.Nodup ∧
    groupNotifyCodes.toFinset.card = 6 := by
  refine ⟨rfl, by decide, by decide⟩

/-! ## Properties: mapping attribute flags -/

/-- Membership of a flag in a set is the AND test on the set's `prot` word. -/
theorem mem_iff_protWord_and (s : Finset ProtFlag) (f : ProtFlag) :
    f ∈ s ↔ protWord s &&& f.mask ≠ 0 := by
  by_cases h1 : ProtFlag.read ∈ s <;> by_cases h2 : ProtFlag.write ∈ s <;>
  by_cases h3 : ProtFlag.cache ∈ s <;> by_cases h4 : ProtFlag.noexec ∈ s <;>
  by_cases h5 : ProtFlag.mmio ∈ s <;> cases f <;>
  simp [protWord, protFlags, List.filter, h1, h2, h3, h4, h5] <;> decide

/-- Every `prot` word of a set of flags is at most 31. -/
theorem protWord_le (s : Finset ProtFlag) : protWord s ≤ 31 := by
  by_cases h1 : ProtFlag.read ∈ s <;> by_cases h2 : ProtFlag.write ∈ s <;>
  by_cases h3 : ProtFlag.cache ∈ s <;> by_cases h4 : ProtFlag.noexec ∈ s <;>
  by_cases h5 : ProtFlag.mmio ∈ s <;>
  simp [protWord, protFlags, List.filter, h1, h2, h3, h4, h5] <;> decide

/-- C7. The five `VMM_IOMMU_*` mapping flags are the single-bit values of bits
0 to 4 and pairwise distinct; the bitwise ORs of two sets of flags are equal
iff the sets are equal; every combination lies in `[0, 31]`; and a flag
belongs to a combination `p` iff `p AND f` is non-zero. -/
theorem prot_word_faithful :
    (VMM_IOMMU_READ = 2 ^ 0 ∧ VMM_IOMMU_WRITE = 2 ^ 1 ∧ VMM_IOMMU_CACHE = 2 ^ 2 ∧
      VMM_IOMMU_NOEXEC = 2 ^ 3 ∧ VMM_IOMMU_MMIO = 2 ^ 4) ∧
    (protFlags.map ProtFlag.mask).Nodup ∧
    (∀ f g : ProtFlag, f.mask = g.mask ↔ f = g) ∧
    (∀ s t : Finset ProtFlag, protWord s = protWord t ↔ s = t) ∧
    (∀ s : Finset ProtFlag, 0 ≤ protWord s ∧ protWord s ≤ 31) ∧
    (∀ (s : Finset ProtFlag) (f : ProtFlag), f ∈ s ↔ protWord s &&& f.mask ≠ 0) := by
  refine ⟨⟨rfl, rfl, rfl, rfl, rfl⟩, by decide, ?_, ?_, ?_, mem_iff_protWord_and⟩
  · intro f g
    cases f <;> cases g <;> decide
  · intro s t
    constructor
    · intro h
      ext f
      rw [mem_iff_protWord_and s f, mem_iff_protWord_and t f, h]
    · intro h
      rw [h]
  · intro s
    exact ⟨Nat.zero_le _, protWord_le s⟩

/-! ## Properties: domain types -/

/-- The flags read back from the type word of a set of flags are that set. -/
theorem domainTypeFlags_domainTypeWord (s : Finset DomainFlag) :
    domainTypeFlags (domainTypeWord s) = s := by
  ext f
  by_cases h1 : DomainFlag.paging ∈ s <;> by_cases h2 : DomainFlag.dma_api ∈ s <;>
  by_cases h3 : DomainFlag.pt ∈ s <;> cases f <;>
  simp [domainTypeFlags, domainTypeWord, domainFlags, List.filter, hasFlag,
    h1, h2, h3] <;> decide

/-- C6, as stated, fails at the type word `8`: none of its three feature flag
bits is set, so its decoded flag set is the empty set, the flag set of
BLOCKED and one of the four subsets, yet `8` is none of the four domain types. -/
theorem domain_type_word_eight_refutes_flag_set_iff :
    domainTypeFlags 8 = ∅ ∧ domainTypeFlags 8 ∈ domainTypeSubsets ∧ 8 ∉ domain_types ∧
    ¬ (8 ∈ domain_types ↔ domainTypeFlags 8 ∈ domainTypeSubsets) := by
  decide

/-- C6, amended. The domain types are BLOCKED, IDENTITY, UNMANAGED and DMA: four
pairwise distinct words, each the bitwise OR of a set of the single-bit feature
flags PAGING (bit 0), DMA_API (bit 1), PT (bit 2), namely of no flag, of PT, of
PAGING, and of PAGING and DMA_API. Distinct flag sets have distinct words and
the flags read back from a set's word are the set. A type word is one of the
domain types iff it has no bit set outside the three feature flags (it is
below 8) and its decoded flag set is one of these four subsets. -/
theorem domain_types_are_four_flag_sets :
    domain_types.Nodup ∧ domain_types.length = 4 ∧
    (__VMM_IOMMU_DOMAIN_PAGING = 2 ^ 0 ∧ __VMM_IOMMU_DOMAIN_DMA_API = 2 ^ 1 ∧
      __VMM_IOMMU_DOMAIN_PT = 2 ^ 2) ∧
    VMM_IOMMU_DOMAIN_BLOCKED = domainTypeWord ∅ ∧
    VMM_IOMMU_DOMAIN_IDENTITY = domainTypeWord {DomainFlag.pt} ∧
    VMM_IOMMU_DOMAIN_UNMANAGED = domainTypeWord {DomainFlag.paging} ∧
    VMM_IOMMU_DOMAIN_DMA = domainTypeWord {DomainFlag.paging, DomainFlag.dma_api} ∧
    domain_types = domainTypeSubsets.map domainTypeWord ∧
    (∀ s t : Finset DomainFlag, domainTypeWord s = domainTypeWord t ↔ s = t) ∧
    (∀ s : Finset DomainFlag, domainTypeFlags (domainTypeWord s) = s) ∧
    (∀ s : Finset DomainFlag, domainTypeWord s ∈ domain_types ↔ s ∈ domainTypeSubsets) ∧
    (∀ type : Nat, type &&& domainFlagsMask = type ↔ type < 8) ∧
    (∀ type : Nat, type ∈ domain_types ↔
      (type &&& domainFlagsMask = type ∧ domainTypeFlags type ∈ domainTypeSubsets)) := by
  have hinj : ∀ s t : Finset DomainFlag, domainTypeWord s = domainTypeWord t ↔ s = t := by
    intro s t
    constructor
    · intro h
      rw [← domainTypeFlags_domainTypeWord s, ← domainTypeFlags_domainTypeWord t, h]
    · intro h
      rw [h]
  have hmap : domain_types = domainTypeSubsets.map domainTypeWord := by decide
  have hmask : ∀ type : Nat, type &&& domainFlagsMask = type ↔ type < 8 := by
    intro type
    constructor
    · intro h
      have hle : type &&& domainFlagsMask ≤ domainFlagsMask := Nat.and_le_right
      have h7 : domainFlagsMask = 7 := by decide
      omega
    · intro h
      interval_cases type <;> decide
  refine ⟨by decide, rfl, ⟨rfl, rfl, rfl⟩, by decide, by decide, by decide, by decide,
    hmap, hinj, domainTypeFlags_domainTypeWord, ?_, hmask, ?_⟩
  · intro s
    rw [hmap, List.mem_map]
    constructor
    · rintro ⟨t, ht, hts⟩
      rw [← (hinj t s).1 hts]
      exact ht
    · intro hs
      exact ⟨s, hs, rfl⟩
  · intro type
    constructor
    · intro h
      have hcases : type = VMM_IOMMU_DOMAIN_BLOCKED ∨ type = VMM_IOMMU_DOMAIN_IDENTITY ∨
          type = VMM_IOMMU_DOMAIN_UNMANAGED ∨ type = VMM_IOMMU_DOMAIN_DMA := by
        simpa [domain_types] using h
      rcases hcases with h | h | h | h <;> subst h <;> decide
    · rintro ⟨hm, hs⟩
      have hlt : type < 8 := (hmask type).1 hm
      interval_cases type
      · decide
      · decide
      · exact absurd hs (by decide)
      · decide
      · decide
      · exact absurd hs (by decide)
      · exact absurd hs (by decide)
      · exact absurd hs (by decide)

/-- C9. Among the four domain types the PAGING flag is set exactly in UNMANAGED
and DMA and clear in BLOCKED and IDENTITY; and in each of the four types
DMA_API set implies PAGING set, and PT set implies PAGING clear. -/
theorem domain_types_paging_flag :
    hasFlag VMM_IOMMU_DOMAIN_UNMANAGED __VMM_IOMMU_DOMAIN_PAGING = true ∧
    hasFlag VMM_IOMMU_DOMAIN_DMA __VMM_IOMMU_DOMAIN_PAGING = true ∧
    hasFlag VMM_IOMMU_DOMAIN_BLOCKED __VMM_IOMMU_DOMAIN_PAGING = false ∧
    hasFlag VMM_IOMMU_DOMAIN_IDENTITY __VMM_IOMMU_DOMAIN_PAGING = false ∧
    (∀ type, type ∈ domain_types →
      (hasFlag type __VMM_IOMMU_DOMAIN_PAGING = true ↔
        type = VMM_IOMMU_DOMAIN_UNMANAGED ∨ type = VMM_IOMMU_DOMAIN_DMA)) ∧
    (∀ type, type ∈ domain_types →
      (hasFlag type __VMM_IOMMU_DOMAIN_DMA_API = true →
        hasFlag type __VMM_IOMMU_DOMAIN_PAGING = true) ∧
      (hasFlag type __VMM_IOMMU_DOMAIN_PT = true →
        hasFlag type __VMM_IOMMU_DOMAIN_PAGING = false)) := by
  refine ⟨by decide, by decide, by decide, by decide, ?_, ?_⟩
  · decide
  · decide

/-! ## Properties: the fault dispatcher -/

/-- C1. On a domain whose fault handler is not installed (`handler` is NULL),
for every device, faulting address and flags value, `report_iommu_fault`
returns `VMM_ENOSYS`, invokes no callback and leaves memory as it was. -/
theorem report_iommu_fault_no_handler (VMM_ENOSYS : Int)
    (text : Ptr → iommu_fault_handler_t) (domain dev : Ptr) (iova : Nat) (flags : Int)
    (m : Machine) (h : (m.domains domain).handler = NULL) :
    (report_iommu_fault VMM_ENOSYS text domain dev iova flags m).ret = VMM_ENOSYS ∧
    (report_iommu_fault VMM_ENOSYS text domain dev iova flags m).calls = [] ∧
    (report_iommu_fault VMM_ENOSYS text domain dev iova flags m).machine = m := by
  simp [report_iommu_fault, h]

/-- C1 at a concrete input: a write fault at `0x1000` on domain `7`, no handler
installed, with `VMM_ENOSYS = -38`. -/
theorem report_iommu_fault_no_handler_witness :
    ((uniformMachine NULL 0).domains 7).handler = NULL ∧
    (report_iommu_fault (-38) (constHandler 0) 7 2 0x1000 VMM_IOMMU_FAULT_WRITE
      (uniformMachine NULL 0)).ret = -38 ∧
    (report_iommu_fault (-38) (constHandler 0) 7 2 0x1000 VMM_IOMMU_FAULT_WRITE
      (uniformMachine NULL 0)).calls = [] :=
  ⟨rfl,
   (report_iommu_fault_no_handler (-38) (constHandler 0) 7 2 0x1000 VMM_IOMMU_FAULT_WRITE
      (uniformMachine NULL 0) rfl).1,
   (report_iommu_fault_no_handler (-38) (constHandler 0) 7 2 0x1000 VMM_IOMMU_FAULT_WRITE
      (uniformMachine NULL 0) rfl).2.1⟩

/-- C2. On a domain whose installed fault handler is `h` with token `t`, for
every device, address and `int` flags (none is checked), `report_iommu_fault`
invokes `h` exactly once, with the arguments `(domain, dev, iova, flags, t)`,
and returns the result code of that call unchanged; memory afterwards is what
the handler left. -/
theorem report_iommu_fault_invokes_handler (VMM_ENOSYS : Int)
    (text : Ptr → iommu_fault_handler_t) (domain dev : Ptr) (iova : Nat) (flags : Int)
    (m : Machine) (h t : Ptr) (hh : (m.domains domain).handler = h) (hn : h ≠ NULL)
    (ht : (m.domains domain).handler_token = t) :
    (report_iommu_fault VMM_ENOSYS text domain dev iova flags m).calls =
      [{ fn := h, domain := domain, dev := dev, iova := iova, flags := flags, token := t }] ∧
    (report_iommu_fault VMM_ENOSYS text domain dev iova flags m).ret =
      (text h domain dev iova flags t m).1 ∧
    (report_iommu_fault VMM_ENOSYS text domain dev iova flags m).machine =
      (text h domain dev iova flags t m).2 := by
  subst hh ht
  simp [report_iommu_fault, hn]

/-- C2 at a concrete input: handler `0x4000` with token `9` returning `-22`, a
fault with the out-of-range flags value `77`. -/
theorem report_iommu_fault_invokes_handler_witness :
    (report_iommu_fault (-38) (constHandler (-22)) 7 2 0x1000 77
      (uniformMachine 0x4000 9)).calls =
      [{ fn := 0x4000, domain := 7, dev := 2, iova := 0x1000, flags := 77, token := 9 }] ∧
    (report_iommu_fault (-38) (constHandler (-22)) 7 2 0x1000 77
      (uniformMachine 0x4000 9)).ret = -22 :=
  ⟨(report_iommu_fault_invokes_handler (-38) (constHandler (-22)) 7 2 0x1000 77
      (uniformMachine 0x4000 9) 0x4000 9 rfl (by decide) rfl).1,
   (report_iommu_fault_invokes_handler (-38) (constHandler (-22)) 7 2 0x1000 77
      (uniformMachine 0x4000 9) 0x4000 9 rfl (by decide) rfl).2.1⟩

/-- C8. A `VMM_ENOSYS` result of `report_iommu_fault` does not imply that no
handler is installed. For a domain with an installed handler that itself
returns `VMM_ENOSYS`, the function calls the handler and returns `VMM_ENOSYS`,
the same result as for a domain with no handler; so "returns `VMM_ENOSYS` iff
no handler is installed" is false, the failing implication being "returns
`VMM_ENOSYS`, hence no handler". -/
theorem report_iommu_fault_enosys_with_handler (VMM_ENOSYS : Int) :
    (∃ (text : Ptr → iommu_fault_handler_t) (mWith mWithout : Machine) (domain : Ptr),
      (mWith.domains domain).handler ≠ NULL ∧
      (mWithout.domains domain).handler = NULL ∧
      ∀ (dev : Ptr) (iova : Nat) (flags : Int),
        (report_iommu_fault VMM_ENOSYS text domain dev iova flags mWith).ret = VMM_ENOSYS ∧
        (report_iommu_fault VMM_ENOSYS text domain dev iova flags mWith).calls.length = 1 ∧
        (report_iommu_fault VMM_ENOSYS text domain dev iova flags mWith).ret =
          (report_iommu_fault VMM_ENOSYS text domain dev iova flags mWithout).ret) ∧
    ¬ (∀ (text : Ptr → iommu_fault_handler_t) (m : Machine) (domain dev : Ptr) (iova : Nat)
        (flags : Int),
        (report_iommu_fault VMM_ENOSYS text domain dev iova flags m).ret = VMM_ENOSYS →
          (m.domains domain).handler = NULL) ∧
    ¬ (∀ (text : Ptr → iommu_fault_handler_t) (m : Machine) (domain dev : Ptr) (iova : Nat)
        (flags : Int),
        (report_iommu_fault VMM_ENOSYS text domain dev iova flags m).ret = VMM_ENOSYS ↔
          (m.domains domain).handler = NULL) := by
  have hne : ((uniformMachine 1 0).domains 0).handler ≠ NULL := by decide
  have hret : ∀ (dev : Ptr) (iova : Nat) (flags : Int),
      (report_iommu_fault VMM_ENOSYS (constHandler VMM_ENOSYS) 0 dev iova flags
        (uniformMachine 1 0)).ret = VMM_ENOSYS := by
    intro dev iova flags
    simp [report_iommu_fault, uniformMachine, blankDomain, constHandler, NULL]
  refine ⟨⟨constHandler VMM_ENOSYS, uniformMachine 1 0, uniformMachine NULL 0, 0, hne, rfl,
    ?_⟩, ?_, ?_⟩
  · intro dev iova flags
    refine ⟨hret dev iova flags, ?_, ?_⟩
    · simp [report_iommu_fault, uniformMachine, blankDomain, NULL]
    · simp [report_iommu_fault, uniformMachine, blankDomain, constHandler, NULL]
  · intro hall
    exact hne (hall (constHandler VMM_ENOSYS) (uniformMachine 1 0) 0 0 0 0 (hret 0 0 0))
  · intro hall
    exact hne ((hall (constHandler VMM_ENOSYS) (uniformMachine 1 0) 0 0 0 0).1 (hret 0 0 0))

/-! ## Properties: group attach -/

/-- Attaching a list that starts with `dev` succeeds iff `dev` attaches and the
rest attaches from the state that leaves. -/
theorem attachesSucceed_cons {σ : Type} (ops : iommu_ops σ) (domain dev : Ptr)
    (rest : List Ptr) (s : σ) :
    attachesSucceed ops domain (dev :: rest) s ↔
      (ops.attach_dev domain dev s).1 = 0 ∧
      attachesSucceed ops domain rest (ops.attach_dev domain dev s).2 := by
  constructor
  · intro h
    refine ⟨h [] dev rest rfl, ?_⟩
    intro pre d post hsplit
    have := h (dev :: pre) d post (by rw [hsplit]; rfl)
    simpa [stateAfterAttach] using this
  · rintro ⟨h0, hrest⟩ pre d post hsplit
    cases pre with
    | nil =>
      simp only [List.nil_append, List.cons.injEq] at hsplit
      obtain ⟨hd, _⟩ := hsplit
      subst hd
      simpa [stateAfterAttach] using h0
    | cons p pre =>
      simp only [List.cons_append, List.cons.injEq] at hsplit
      obtain ⟨hp, hsplit⟩ := hsplit
      subst hp
      simpa [stateAfterAttach] using hrest pre d post hsplit

/-- Either every device of a list attaches, or there is a first device whose
`attach_dev` returns a non-zero code. -/
theorem attachesSucceed_or_first_failure {σ : Type} (ops : iommu_ops σ) (domain : Ptr)
    (devs : List Ptr) (s : σ) :
    attachesSucceed ops domain devs s ∨
    ∃ pre dev post, devs = pre ++ dev :: post ∧ attachesSucceed ops domain pre s ∧
      (ops.attach_dev domain dev (stateAfterAttach ops domain pre s)).1 ≠ 0 := by
  induction devs generalizing s with
  | nil =>
    left
    intro pre dev post hsplit
    simp at hsplit
  | cons d rest ih =>
    by_cases h0 : (ops.attach_dev domain d s).1 = 0
    · rcases ih (ops.attach_dev domain d s).2 with h | ⟨pre, dev, post, hsplit, hpre, hdev⟩
      · left
        exact (attachesSucceed_cons ops domain d rest s).2 ⟨h0, h⟩
      · right
        refine ⟨d :: pre, dev, post, by rw [hsplit]; rfl, ?_, ?_⟩
        · exact (attachesSucceed_cons ops domain d pre s).2 ⟨h0, hpre⟩
        · simpa [stateAfterAttach] using hdev
    · right
      refine ⟨[], d, rest, rfl, ?_, ?_⟩
      · intro pre dev post hsplit
        simp at hsplit
      · simpa [stateAfterAttach] using h0

/-- The rollback runs the driver's `detach_dev` once for each device of its
list, in order. -/
theorem detach_devices_eq {σ : Type} (ops : iommu_ops σ) (domain : Ptr)
    (l : List Ptr) (w : DriverWorld σ) :
    detach_devices ops domain l w =
      { state := stateAfterDetach ops domain l w.state,
        log := w.log ++ l.map (OpsCall.detach_dev domain) } := by
  induction l generalizing w with
  | nil => simp [detach_devices, stateAfterDetach]
  | cons dev rest ih =>
    simp [detach_devices, ih, call_detach_dev, stateAfterDetach]

/-- When every device attaches, the attach loop runs the driver's `attach_dev`
on each of them in order and reports all of them attached. -/
theorem attach_devices_all {σ : Type} (ops : iommu_ops σ) (domain : Ptr)
    (todo done : List Ptr) (w : DriverWorld σ)
    (hall : attachesSucceed ops domain todo w.state) :
    attach_devices ops domain todo done w =
      (0, todo.reverse ++ done,
        { state := stateAfterAttach ops domain todo w.state,
          log := w.log ++ todo.map (fun d => OpsCall.attach_dev domain d 0) }) := by
  induction todo generalizing done w with
  | nil => simp [attach_devices, stateAfterAttach]
  | cons dev rest ih =>
    obtain ⟨h0, hrest⟩ := (attachesSucceed_cons ops domain dev rest w.state).1 hall
    have hstep : attach_devices ops domain (dev :: rest) done w =
        attach_devices ops domain rest (dev :: done) (call_attach_dev ops domain dev w).2 := by
      simp [attach_devices, call_attach_dev, h0]
    rw [hstep, ih (dev :: done) (call_attach_dev ops domain dev w).2
      (by simpa [call_attach_dev] using hrest)]
    simp [call_attach_dev, h0, stateAfterAttach]

/-- When the devices of `pre` attach and the next device's `attach_dev` returns
a non-zero code, the attach loop stops there: it returns that code, reports the
devices of `pre` attached (latest first) and has not touched the devices after. -/
theorem attach_devices_first_failure {σ : Type} (ops : iommu_ops σ) (domain : Ptr)
    (pre : List Ptr) (dev : Ptr) (post done : List Ptr) (w : DriverWorld σ)
    (hpre : attachesSucceed ops domain pre w.state)
    (hdev : (ops.attach_dev domain dev (stateAfterAttach ops domain pre w.state)).1 ≠ 0) :
    attach_devices ops domain (pre ++ dev :: post) done w =
      ((ops.attach_dev domain dev (stateAfterAttach ops domain pre w.state)).1,
        pre.reverse ++ done,
        { state := (ops.attach_dev domain dev (stateAfterAttach ops domain pre w.state)).2,
          log := w.log ++ pre.map (fun d => OpsCall.attach_dev domain d 0) ++
            [OpsCall.attach_dev domain dev
              (ops.attach_dev domain dev (stateAfterAttach ops domain pre w.state)).1] }) := by
  induction pre generalizing done w with
  | nil =>
    have h0 : (ops.attach_dev domain dev w.state).1 ≠ 0 := by
      simpa [stateAfterAttach] using hdev
    simp [attach_devices, call_attach_dev, h0, stateAfterAttach]
  | cons p pre ih =>
    obtain ⟨h0, hrest⟩ := (attachesSucceed_cons ops domain p pre w.state).1 hpre
    have hstep : attach_devices ops domain (p :: pre ++ dev :: post) done w =
        attach_devices ops domain (pre ++ dev :: post) (p :: done)
          (call_attach_dev ops domain p w).2 := by
      simp [attach_devices, call_attach_dev, h0]
    rw [hstep, ih (p :: done) (call_attach_dev ops domain p w).2
      (by simpa [call_attach_dev] using hrest)
      (by simpa [call_attach_dev, stateAfterAttach] using hdev)]
    simp [call_attach_dev, h0, stateAfterAttach]

/-- C4. `iommu_group_attach_domain` is all-or-nothing on the group's attached
domain, for every driver. (1) On a group that already holds a domain it fails
with `AlreadyAttached` and leaves the group and the driver as they were. (2) On
a group with no domain, when the driver's `attach_dev` returns `0` for every
member device, the given domain is recorded as the attached domain and the
driver is in the state these attaches left. (3) On a group with no domain whose
devices are `pre ++ dev :: post`, when the attaches of `pre` return `0` and
that of `dev` is the first to fail, with code `rc`: `rc` is returned, the group
is unchanged and has no attached domain, no device of `post` is attached, and
the driver's `detach_dev` has run for every device of `pre`, latest first, from
the state the failed attach left. (4) One of (2) and (3) always applies. (5) In
every case the group's attached domain afterwards is the one before, or the
call succeeded on a group without domain and it is the given domain. -/
theorem iommu_group_attach_domain_all_or_nothing {σ : Type} (ops : iommu_ops σ)
    (group : iommu_group) (domain : Ptr) (w : DriverWorld σ) :
    (∀ held, group.domain = some held →
      iommu_group_attach_domain ops group domain w =
        (AttachStatus.AlreadyAttached, group, w)) ∧
    (group.domain = none → attachesSucceed ops domain group.devices w.state →
      iommu_group_attach_domain ops group domain w =
        (AttachStatus.ok, { devices := group.devices, domain := some domain },
          { state := stateAfterAttach ops domain group.devices w.state,
            log := w.log ++ group.devices.map (fun d => OpsCall.attach_dev domain d 0) })) ∧
    (group.domain = none → ∀ pre dev post rc, group.devices = pre ++ dev :: post →
      attachesSucceed ops domain pre w.state →
      (ops.attach_dev domain dev (stateAfterAttach ops domain pre w.state)).1 = rc →
      rc ≠ 0 →
      iommu_group_attach_domain ops group domain w =
        (AttachStatus.driver_error rc, group,
          { state := stateAfterDetach ops domain pre.reverse
              (ops.attach_dev domain dev (stateAfterAttach ops domain pre w.state)).2,
            log := w.log ++ pre.map (fun d => OpsCall.attach_dev domain d 0) ++
              [OpsCall.attach_dev domain dev rc] ++
              pre.reverse.map (OpsCall.detach_dev domain) })) ∧
    (attachesSucceed ops domain group.devices w.state ∨
      ∃ pre dev post, group.devices = pre ++ dev :: post ∧
        attachesSucceed ops domain pre w.state ∧
        (ops.attach_dev domain dev (stateAfterAttach ops domain pre w.state)).1 ≠ 0) ∧
    ((iommu_group_attach_domain ops group domain w).2.1 = group ∨
      (group.domain = none ∧
        (iommu_group_attach_domain ops group domain w).1 = AttachStatus.ok ∧
        (iommu_group_attach_domain ops group domain w).2.1 =
          { devices := group.devices, domain := some domain })) := by
  have hok : group.domain = none → attachesSucceed ops domain group.devices w.state →
      iommu_group_attach_domain ops group domain w =
        (AttachStatus.ok, { devices := group.devices, domain := some domain },
          { state := stateAfterAttach ops domain group.devices w.state,
            log := w.log ++ group.devices.map (fun d => OpsCall.attach_dev domain d 0) }) := by
    intro hnone hall
    simp [iommu_group_attach_domain, hnone, attach_devices_all ops domain _ _ w hall]
  have hfail : group.domain = none → ∀ pre dev post rc, group.devices = pre ++ dev :: post →
      attachesSucceed ops domain pre w.state →
      (ops.attach_dev domain dev (stateAfterAttach ops domain pre w.state)).1 = rc →
      rc ≠ 0 →
      iommu_group_attach_domain ops group domain w =
        (AttachStatus.driver_error rc, group,
          { state := stateAfterDetach ops domain pre.reverse
              (ops.attach_dev domain dev (stateAfterAttach ops domain pre w.state)).2,
            log := w.log ++ pre.map (fun d => OpsCall.attach_dev domain d 0) ++
              [OpsCall.attach_dev domain dev rc] ++
              pre.reverse.map (OpsCall.detach_dev domain) }) := by
    intro hnone pre dev post rc hsplit hpre hrc hne
    subst hrc
    simp [iommu_group_attach_domain, hnone, hsplit,
      attach_devices_first_failure ops domain pre dev post [] w hpre hne, hne,
      detach_devices_eq]
  refine ⟨?_, hok, hfail, attachesSucceed_or_first_failure ops domain group.devices w.state, ?_⟩
  · intro held hheld
    simp [iommu_group_attach_domain, hheld]
  · cases hdom : group.domain with
    | some held =>
      left
      simp [iommu_group_attach_domain, hdom]
    | none =>
      rcases attachesSucceed_or_first_failure ops domain group.devices w.state with
        h | ⟨pre, dev, post, hsplit, hpre, hdev⟩
      · right
        rw [hok hdom h]
        exact ⟨rfl, rfl, rfl⟩
      · left
        rw [hfail hdom pre dev post _ hsplit hpre rfl hdev]

/-- C4 at a concrete input: devices `1, 2, 3, 4` on a group without domain, the
driver failing on device `3` with `-5`. Devices `1` and `2` attach, `3` fails,
`2` and `1` are detached again (the driver's count of attached devices is back
at `0`), `4` is never touched, `-5` is returned and the group is unchanged. -/
theorem iommu_group_attach_domain_all_or_nothing_witness :
    iommu_group_attach_domain sampleOps { devices := [1, 2, 3, 4], domain := none } 10
      { state := 0, log := [] } =
      (AttachStatus.driver_error (-5), { devices := [1, 2, 3, 4], domain := none },
        { state := 0,
          log := [ OpsCall.attach_dev 10 1 0, OpsCall.attach_dev 10 2 0,
            OpsCall.attach_dev 10 3 (-5), OpsCall.detach_dev 10 2,
            OpsCall.detach_dev 10 1 ] }) :=
  (iommu_group_attach_domain_all_or_nothing sampleOps
      { devices := [1, 2, 3, 4], domain := none } 10 { state := 0, log := [] }).2.2.1
    rfl [1, 2] 3 [4] (-5) rfl
    ((attachesSucceed_cons sampleOps 10 1 [2] 0).2
      ⟨by decide, (attachesSucceed_cons sampleOps 10 2 [] 1).2
        ⟨by decide, fun pre dev post hsplit => by simp at hsplit⟩⟩)
    (by decide) (by decide)

/-- A run of group attach with rollback, evaluated on the model: the same input
as above gives the same result. -/
theorem iommu_group_attach_domain_rollback_run :
    (iommu_group_attach_domain sampleOps { devices := [1, 2, 3, 4], domain := none } 10
      { state := 0, log := [] }).1 = AttachStatus.driver_error (-5) ∧
    (iommu_group_attach_domain sampleOps { devices := [1, 2, 3, 4], domain := none } 10
      { state := 0, log := [] }).2.1.domain = none ∧
    (iommu_group_attach_domain sampleOps { devices := [1, 2, 3, 4], domain := none } 10
      { state := 0, log := [] }).2.2.state = 0 ∧
    (iommu_group_attach_domain sampleOps { devices := [1, 2, 3, 4], domain := none } 10
      { state := 0, log := [] }).2.2.log =
      [ OpsCall.attach_dev 10 1 0, OpsCall.attach_dev 10 2 0, OpsCall.attach_dev 10 3 (-5),
        OpsCall.detach_dev 10 2, OpsCall.detach_dev 10 1 ] := by
  refine ⟨by decide, by decide, by decide, by decide⟩

/-- Runs of group attach on an attached group and on a group whose devices all
attach: the first fails with `AlreadyAttached` and keeps domain `11`, the
second records domain `10` with both devices attached. -/
theorem iommu_group_attach_domain_plain_runs :
    iommu_group_attach_domain sampleOps { devices := [1, 2], domain := some 11 } 10
      { state := 0, log := [] } =
      (AttachStatus.AlreadyAttached, { devices := [1, 2], domain := some 11 },
        { state := 0, log := [] }) ∧
    (iommu_group_attach_domain sampleOps { devices := [1, 2], domain := none } 10
      { state := 0, log := [] }).1 = AttachStatus.ok ∧
    (iommu_group_attach_domain sampleOps { devices := [1, 2], domain := none } 10
      { state := 0, log := [] }).2.1.domain = some 10 ∧
    (iommu_group_attach_domain sampleOps { devices := [1, 2], domain := none } 10
      { state := 0, log := [] }).2.2.state = 2 := by
  refine ⟨rfl, by decide, by decide, by decide⟩

end Minos
